import Mathlib

/-!
Shallow embedding of the WhatsAuto webhook server (conversation-state
router). The server receives `{phone, message}` requests, keeps one
`UserRecord` per normalized phone in an external store, and routes
messages either through the menu flow (`"1"`/`"2"`/`"3"`) or to a bound
AI agent conversation.

External effects (the Supabase store and the upstream AI API) are made
explicit: every store write and upstream call is recorded as an `Event`
in a trace, upstream outcomes are supplied by an `Env`, and the effect
of a request on the persisted record is obtained by folding the trace
with `applyEvents`.
-/

namespace WebhookChatbot

/-- JS truthiness of a nullable string: `null` and `""` are falsy. -/
def optTruthy : Option String → Bool
  | none => false
  | some s => s != ""

/-- JS `a || b` for a nullable string `a` and a string fallback `b`. -/
def jsOr : Option String → String → String
  | none, fallback => fallback
  | some s, fallback => if s = "" then fallback else s

/-- `INACTIVITY_THRESHOLD_MS = 1 * 60 * 1000` (milliseconds). -/
def INACTIVITY_THRESHOLD_MS : Int := 1 * 60 * 1000

/-- The static `AGENT_IDS` table mapping agent-type name to upstream agent id. -/
def AGENT_IDS : String → Option String := fun agentType =>
  if agentType = "Customer Service" then some "948aad98-7c1a-4c07-830a-82125d85543c"
  else if agentType = "Sales" then some "726fb1ca-dee1-4cfb-bba5-41e2cd3b032d"
  else none

/-- One row of the `conversation_states` table. Nullable columns are
`Option`; timestamps are integers (milliseconds since epoch). -/
structure UserRecord where
  phone : String
  state : String
  agent : Option String
  last_message : String
  cs_conversation_id : Option String
  sales_conversation_id : Option String
  last_activity_timestamp : Option Int
deriving Repr, DecidableEq

/-- `isUserInactive(lastActivityTimestamp)`: null timestamp is inactive;
otherwise inactive iff `now - lastActivity > INACTIVITY_THRESHOLD_MS`.
The implicit `new Date().getTime()` is the explicit `now` argument. -/
def isUserInactive (now : Int) (lastActivityTimestamp : Option Int) : Bool :=
  match lastActivityTimestamp with
  | none => true
  | some lastActivity => decide (now - lastActivity > INACTIVITY_THRESHOLD_MS)

/-- Outcome of the upstream chat-agent call: transport failure (the
`catch` branch) or a response whose `data` body may be absent/empty. -/
inductive ChatOutcome where
  | failure
  | success (body : Option String)
deriving Repr, DecidableEq

/-- The external world of one request: result of the create-conversation
call per agent type (`none` = non-2xx, thrown, or missing `data.data.id`),
result of the chat call, and whether the store's user insert succeeds. -/
structure Env where
  createConv : String → Option String
  chat : String → String → String → ChatOutcome
  createUserOk : Bool

/-- Observable store writes and upstream calls, in program order. -/
inductive Event where
  | fetchUser (phone : String)
  | createUserEv (phone lastMsg : String) (ok : Bool)
  | updateMessage (phone lastMsg : String)
  | inactivityCheck (ts : Option Int)
  | createConvCall (agentType : String)
  | updateConvId (phone agentType cid : String)
  | chatCall (agent msg cid : String)
  | updateAgent (phone agent : String)
  | updateActivity (phone : String)
deriving Repr, DecidableEq

/-- Does the event patch `last_activity_timestamp`? (`createUser` sets it
at insert; `updateConversationId` and `updateLastActivityTimestamp`
patch it; `updateUserMessage` and `updateUserAgent` intentionally do not.) -/
def writesActivity : Event → Bool
  | Event.createUserEv _ _ ok => ok
  | Event.updateConvId _ _ _ => true
  | Event.updateActivity _ => true
  | _ => false

/-- Does the event write any field of the store at all? -/
def writesAnyField : Event → Bool
  | Event.createUserEv _ _ _ => true
  | Event.updateMessage _ _ => true
  | Event.updateConvId _ _ _ => true
  | Event.updateAgent _ _ => true
  | Event.updateActivity _ => true
  | _ => false

/-- Is the event a call to the upstream AI API (conversation create or chat)? -/
def isUpstreamCall : Event → Bool
  | Event.createConvCall _ => true
  | Event.chatCall _ _ _ => true
  | _ => false

/-- Is the event a call to the upstream create-conversation endpoint? -/
def isCreateConvCall : Event → Bool
  | Event.createConvCall _ => true
  | _ => false

/-- `createConversationId(agentType)`: looks up `AGENT_IDS[agentType]`;
unknown agent type returns `null` without any upstream call; otherwise the
upstream call is made and yields `data.data.id` or `null` on failure. -/
def createConversationId (env : Env) (agentType : String) : Option String × List Event :=
  match AGENT_IDS agentType with
  | none => (none, [])
  | some _ => (env.createConv agentType, [Event.createConvCall agentType])

/-- The per-agent conversation-id column: `cs_conversation_id` for
`"Customer Service"`, `sales_conversation_id` otherwise. -/
def conversationField (agentType : String) (userData : UserRecord) : Option String :=
  if agentType = "Customer Service" then userData.cs_conversation_id
  else userData.sales_conversation_id

/-- `getOrCreateConversationId(phone, agentType, userData, forceNewConversation)`:
if the stored id is falsy or a new conversation is forced, create one and
(on success) persist it via `updateConversationId`; otherwise reuse the
stored id. -/
def getOrCreateConversationId (env : Env) (phone agentType : String)
    (userData : UserRecord) (forceNewConversation : Bool) : Option String × List Event :=
  let existingConversationId := conversationField agentType userData
  if !optTruthy existingConversationId || forceNewConversation then
    match createConversationId env agentType with
    | (some newConversationId, evs) =>
        (some newConversationId, evs ++ [Event.updateConvId phone agentType newConversationId])
    | (none, evs) => (none, evs)
  else
    (existingConversationId, [])

/-- `chatWithAgent(agent, message, conversationId)`: posts to the chat
endpoint; `response.data || "Maaf, kami tidak dapat memproses pesan Anda saat ini."`
on success, and the fixed apology string in the `catch` branch. -/
def chatWithAgent (env : Env) (agent message conversationId : String) : String × List Event :=
  match env.chat agent message conversationId with
  | ChatOutcome.failure =>
      ("Terjadi kesalahan saat berkomunikasi dengan agen. Silahkan coba lagi nanti.",
       [Event.chatCall agent message conversationId])
  | ChatOutcome.success body =>
      (jsOr body "Maaf, kami tidak dapat memproses pesan Anda saat ini.",
       [Event.chatCall agent message conversationId])

/-- The JavaScript `\s` character class (whitespace and line terminators). -/
def isJsWhitespace (c : Char) : Bool :=
  c = ' ' || c = '\t' || c = '\n' || c = '\r' ||
  c.val = 11 || c.val = 12 ||
  c.val = 0x00a0 || c.val = 0x1680 ||
  (0x2000 ≤ c.val && c.val ≤ 0x200a) ||
  c.val = 0x2028 || c.val = 0x2029 || c.val = 0x202f || c.val = 0x205f ||
  c.val = 0x3000 || c.val = 0xfeff

/-- A character matched by the normalization regex `[\s+-]`. -/
def isPhoneStrippedChar (c : Char) : Bool :=
  isJsWhitespace c || c = '+' || c = '-'

/-- `rawPhone.replace([\s+-] global, "")`: drop every whitespace, `+`
and `-` character. -/
def normalizePhone (raw : String) : String :=
  String.mk (raw.data.filter (fun c => !isPhoneStrippedChar c))

/-- `String.prototype.trim`: strip leading and trailing `\s` characters. -/
def jsTrim (s : String) : String :=
  String.mk (((s.data.dropWhile isJsWhitespace).reverse.dropWhile isJsWhitespace).reverse)

/-- Result object of `handleAgentSelection`. -/
structure SelectionResult where
  choice : String
  reply : String
deriving Repr, DecidableEq

/-- `handleAgentSelection(phone, currentState, message, userData, isInactive)`.
Returns `none` when `currentState ≠ "selecting"` (the function falls off
its end, i.e. JS `undefined`). Menu selections write the new agent and
refresh the activity timestamp; other text routes to the bound agent,
prompts the menu when no agent is bound. -/
def handleAgentSelection (env : Env) (phone currentState message : String)
    (userData : UserRecord) (inactive : Bool) : Option SelectionResult × List Event :=
  let currentAgent := userData.agent
  if currentState = "selecting" then
    if jsTrim message = "1" then
      (some ⟨"Customer Service",
        "Anda telah terhubung dengan Customer Service. Ketik 3, untuk memutuskan koneksi."⟩,
       [Event.updateAgent phone "Customer Service", Event.updateActivity phone])
    else if jsTrim message = "2" then
      (some ⟨"Sales",
        "Anda telah terhubung dengan Sales Team. Ketik 3, untuk memutuskan koneksi."⟩,
       [Event.updateAgent phone "Sales", Event.updateActivity phone])
    else if jsTrim message = "3" then
      (some ⟨"",
        "Koneksi anda telah terputus. Silahkan pilih agent kami untuk keperluan anda. 1) Customer Service 2) Sales Team"⟩,
       [Event.updateAgent phone "", Event.updateActivity phone])
    else
      if optTruthy currentAgent then
        let agentName := currentAgent.getD ""
        match getOrCreateConversationId env phone agentName userData inactive with
        | (some conversationId, evs) =>
            let chatResult := chatWithAgent env agentName message conversationId
            (some ⟨agentName, chatResult.1⟩,
             evs ++ chatResult.2 ++ [Event.updateActivity phone])
        | (none, evs) =>
            (some ⟨agentName, "Maaf, terjadi kesalahan sistem. Silahkan coba lagi nanti."⟩, evs)
      else
        (some ⟨"INVALID",
          "Apakah ada yang bisa kami bantu? Silahkan pilih agent kami untuk keperluan anda. 1) Customer Service 2) Sales Team"⟩,
         [])
  else
    (none, [])

/-- HTTP response of the webhook endpoint: the single 400 error body, or
the 200 JSON `{exists, reply, choice}`. -/
inductive HttpResponse where
  | badRequest (error : String)
  | ok (found : Bool) (reply choice : String)
deriving Repr, DecidableEq

/-- HTTP status code of a response. -/
def HttpResponse.status : HttpResponse → Nat
  | .badRequest _ => 400
  | .ok _ _ _ => 200

/-- Reply sent on first contact when `createUser` succeeds. -/
def welcomeReply : String :=
  "Selamat datang! Silahkan pilih agent kami untuk keperluan anda. 1) Customer Service 2) Sales Team"

/-- Reply sent on first contact when `createUser` fails. -/
def createErrorReply : String :=
  "Terjadi kesalahan saat memproses permintaan Anda. Silahkan coba lagi nanti."

/-- Reply sent when `handleAgentSelection` returned `undefined`. -/
def fallbackMenuReply : String :=
  "Silahkan pilih agent kami untuk keperluan anda. 1) Customer Service 2) Sales Team"

/-- The `app.post("/")` handler. `rawPhone = none` models an absent
`phone` field; the empty string is likewise falsy. `store` is the
`conversation_states` table keyed by normalized phone; `now` is the
request's clock reading. Returns the HTTP response and the trace of
store writes and upstream calls, in program order. -/
def webhookPost (env : Env) (now : Int) (store : String → Option UserRecord)
    (rawPhone : Option String) (lastMessage : String) : HttpResponse × List Event :=
  match rawPhone with
  | none => (HttpResponse.badRequest "Phone number is missing", [])
  | some raw =>
    if raw = "" then (HttpResponse.badRequest "Phone number is missing", [])
    else
      let phone := normalizePhone raw
      match store phone with
      | none =>
          if env.createUserOk then
            (HttpResponse.ok false welcomeReply "",
             [Event.fetchUser phone, Event.createUserEv phone lastMessage true])
          else
            (HttpResponse.ok false createErrorReply "",
             [Event.fetchUser phone, Event.createUserEv phone lastMessage false])
      | some userData =>
          let userInactive := isUserInactive now userData.last_activity_timestamp
          let selection := handleAgentSelection env phone userData.state lastMessage userData userInactive
          let evs := Event.fetchUser phone ::
            Event.inactivityCheck userData.last_activity_timestamp ::
            Event.updateMessage phone lastMessage :: selection.2
          match selection.1 with
          | some r => (HttpResponse.ok true r.reply r.choice, evs)
          | none => (HttpResponse.ok true fallbackMenuReply "", evs)

/-- The row `createUser(phone, last_message)` inserts. -/
def createUserRecord (phone lastMsg : String) (now : Int) : UserRecord :=
  { phone := phone, state := "initial", agent := none, last_message := lastMsg,
    cs_conversation_id := none, sales_conversation_id := none,
    last_activity_timestamp := some now }

/-- Effect of one patch event on an existing row. -/
def applyEventRec (now : Int) (r : UserRecord) : Event → UserRecord
  | Event.updateMessage _ m => { r with state := "selecting", last_message := m }
  | Event.updateConvId _ agentType cid =>
      if agentType = "Customer Service" then
        { r with cs_conversation_id := some cid, last_activity_timestamp := some now }
      else
        { r with sales_conversation_id := some cid, last_activity_timestamp := some now }
  | Event.updateAgent _ a => { r with agent := some a }
  | Event.updateActivity _ => { r with last_activity_timestamp := some now }
  | _ => r

/-- Effect of a trace on the (possibly absent) row of the request's phone. -/
def applyEvents (now : Int) (s : Option UserRecord) (evs : List Event) : Option UserRecord :=
  evs.foldl (fun acc e =>
    match e with
    | Event.createUserEv phone m true => some (createUserRecord phone m now)
    | _ => acc.map (fun r => applyEventRec now r e)) s

/-! Concrete fixtures used by witnesses and counterexamples. -/

/-- Environment where every upstream call succeeds. -/
def envOk : Env :=
  { createConv := fun _ => some "cid-new",
    chat := fun _ _ _ => ChatOutcome.success (some "agent reply"),
    createUserOk := true }

/-- Environment where every upstream call fails. -/
def envFail : Env :=
  { createConv := fun _ => none,
    chat := fun _ _ _ => ChatOutcome.failure,
    createUserOk := true }

/-- A freshly created record for phone `"628"` still in state `initial`. -/
def recInitial : UserRecord :=
  { phone := "628", state := "initial", agent := none, last_message := "",
    cs_conversation_id := none, sales_conversation_id := none,
    last_activity_timestamp := some 0 }

/-- `recInitial` after the second message moved it to `selecting`. -/
def recSelecting : UserRecord := { recInitial with state := "selecting" }

/-- A `selecting` record bound to Customer Service with a live handle. -/
def recCS : UserRecord :=
  { recSelecting with agent := some "Customer Service", cs_conversation_id := some "cid-old" }

/-- A store holding exactly one row for phone `"628"`. -/
def storeWith (r : UserRecord) : String → Option UserRecord :=
  fun p => if p = "628" then some r else none

/-! ## Claims -/

/-- C5: `isUserInactive` returns true for an absent timestamp; for a
present timestamp it returns true exactly when `now - ts` exceeds the
threshold, and at the boundary `now - ts = threshold` it returns false. -/
theorem c5_isUserInactive_spec (now t : Int) :
    isUserInactive now none = true ∧
    (isUserInactive now (some t) = true ↔ now - t > INACTIVITY_THRESHOLD_MS) ∧
    isUserInactive (t + INACTIVITY_THRESHOLD_MS) (some t) = false := by
  refine ⟨rfl, by simp [isUserInactive], ?_⟩
  simp [isUserInactive]

/-- C9: phone normalization keeps the remaining characters in their
original order (sublist), removes every whitespace/`+`/`-` character
and no occurrence of any other character, and is idempotent. -/
theorem c9_normalizePhone_spec (x : String) :
    (normalizePhone x).data.Sublist x.data ∧
    (∀ c : Char, (normalizePhone x).data.count c =
        if isPhoneStrippedChar c then 0 else x.data.count c) ∧
    normalizePhone (normalizePhone x) = normalizePhone x := by
  refine ⟨List.filter_sublist x.data, fun c => ?_, ?_⟩
  · by_cases hc : isPhoneStrippedChar c
    · simp only [hc, if_true, normalizePhone]
      refine List.count_eq_zero.mpr (fun hmem => ?_)
      have := (List.mem_filter.mp hmem).2
      simp [hc] at this
    · simp only [hc, if_false, normalizePhone]
      exact List.count_filter (by simp [hc])
  · show String.mk _ = String.mk _
    congr 1
    exact List.filter_eq_self.mpr (fun a ha => (List.mem_filter.mp ha).2)

/-- C10: `chatWithAgent` always yields a reply string: upstream failure
gives the fixed apology, a successful response with falsy body gives the
fixed cannot-process string, and a truthy body is returned verbatim. -/
theorem c10_chatWithAgent_total (env : Env) (agent message conversationId : String) :
    (env.chat agent message conversationId = ChatOutcome.failure →
      (chatWithAgent env agent message conversationId).1 =
        "Terjadi kesalahan saat berkomunikasi dengan agen. Silahkan coba lagi nanti.") ∧
    (∀ body, env.chat agent message conversationId = ChatOutcome.success body →
      (optTruthy body = false →
        (chatWithAgent env agent message conversationId).1 =
          "Maaf, kami tidak dapat memproses pesan Anda saat ini.") ∧
      (∀ s, body = some s → s ≠ "" →
        (chatWithAgent env agent message conversationId).1 = s)) := by
  refine ⟨fun hf => by simp [chatWithAgent, hf], fun body hb => ⟨fun hfalsy => ?_, ?_⟩⟩
  · cases body with
    | none => simp [chatWithAgent, hb, jsOr]
    | some s =>
        have hs : s = "" := by simpa [optTruthy] using hfalsy
        simp [chatWithAgent, hb, jsOr, hs]
  · intro s hs hne
    subst hs
    simp [chatWithAgent, hb, jsOr, hne]

/-- C10 witness: with a failing upstream, the reply is the apology string. -/
theorem c10_chatWithAgent_total_witness :
    (chatWithAgent envFail "Customer Service" "hi" "c1").1 =
      "Terjadi kesalahan saat berkomunikasi dengan agen. Silahkan coba lagi nanti." :=
  (c10_chatWithAgent_total envFail "Customer Service" "hi" "c1").1 rfl

/-- C8: the response is non-200 exactly when the phone field is missing
or empty; in that case the body is the fixed error object and the trace
is empty (no store access, no upstream call). -/
theorem c8_missing_phone_400 (env : Env) (now : Int) (store : String → Option UserRecord)
    (rawPhone : Option String) (lastMessage : String) :
    ((webhookPost env now store rawPhone lastMessage).1.status ≠ 200 ↔
      (rawPhone = none ∨ rawPhone = some "")) ∧
    ((rawPhone = none ∨ rawPhone = some "") →
      webhookPost env now store rawPhone lastMessage =
        (HttpResponse.badRequest "Phone number is missing", [])) := by
  cases rawPhone with
  | none => exact ⟨by simp [webhookPost, HttpResponse.status], fun _ => rfl⟩
  | some raw =>
      by_cases hr : raw = ""
      · subst hr
        exact ⟨by simp [webhookPost, HttpResponse.status], fun _ => rfl⟩
      · refine ⟨?_, fun h => by simp [hr] at h⟩
        have h200 : (webhookPost env now store (some raw) lastMessage).1.status = 200 := by
          cases hs : store (normalizePhone raw) with
          | none =>
              cases hok : env.createUserOk <;>
                simp [webhookPost, hr, hs, hok, HttpResponse.status]
          | some userData =>
              cases hsel : (handleAgentSelection env (normalizePhone raw) userData.state
                  lastMessage userData
                  (isUserInactive now userData.last_activity_timestamp)).1 <;>
                simp [webhookPost, hr, hs, hsel, HttpResponse.status]
        simp [h200, hr]

/-- C8 witness: a request with no phone field gets the 400 error and an
empty trace. -/
theorem c8_missing_phone_400_witness :
    webhookPost envOk 0 (storeWith recInitial) none "hi" =
      (HttpResponse.badRequest "Phone number is missing", []) :=
  (c8_missing_phone_400 envOk 0 (storeWith recInitial) none "hi").2 (Or.inl rfl)

/-- C1 counterexample: an existing record still in state `initial`
receiving `"1"` does not bind Customer Service — the handler's selection
function returns `undefined` (it only processes state `"selecting"`), so
the reply is the generic menu prompt, `choice` is `""`, and the
persisted agent stays `none`. -/
theorem c1_initial_state_counterexample :
    (webhookPost envOk 1000 (storeWith recInitial) (some "628") "1").1 =
      HttpResponse.ok true fallbackMenuReply "" ∧
    (webhookPost envOk 1000 (storeWith recInitial) (some "628") "1").1 ≠
      HttpResponse.ok true
        "Anda telah terhubung dengan Customer Service. Ketik 3, untuk memutuskan koneksi."
        "Customer Service" ∧
    (applyEvents 1000 (some recInitial)
        (webhookPost envOk 1000 (storeWith recInitial) (some "628") "1").2).map
      UserRecord.agent = some none := by
  decide

/-- C1 (amended to records in state `selecting`): an inbound `"1"`
(after trimming) binds Customer Service — the response carries
`choice = "Customer Service"` and the fixed CS-connected reply, and the
persisted record has `agent = "Customer Service"` and state `selecting`. -/
theorem c1_bind_cs_from_selecting (env : Env) (now : Int)
    (store : String → Option UserRecord) (raw message : String) (r : UserRecord)
    (hraw : raw ≠ "")
    (hstore : store (normalizePhone raw) = some r)
    (hstate : r.state = "selecting")
    (hmsg : jsTrim message = "1") :
    (webhookPost env now store (some raw) message).1 =
      HttpResponse.ok true
        "Anda telah terhubung dengan Customer Service. Ketik 3, untuk memutuskan koneksi."
        "Customer Service" ∧
    applyEvents now (some r) (webhookPost env now store (some raw) message).2 =
      some { r with state := "selecting", last_message := message, agent := some "Customer Service", last_activity_timestamp := some now } := by
  constructor
  · simp [webhookPost, hraw, hstore, handleAgentSelection, hstate, hmsg]
  · simp [webhookPost, hraw, hstore, handleAgentSelection, hstate, hmsg,
      applyEvents, applyEventRec]

/-- C1 witness: a concrete `selecting` record receiving `" 1 "`. -/
theorem c1_bind_cs_from_selecting_witness :
    (webhookPost envOk 1000 (storeWith recSelecting) (some "628") " 1 ").1 =
      HttpResponse.ok true
        "Anda telah terhubung dengan Customer Service. Ketik 3, untuk memutuskan koneksi."
        "Customer Service" ∧
    applyEvents 1000 (some recSelecting)
        (webhookPost envOk 1000 (storeWith recSelecting) (some "628") " 1 ").2 =
      some { recSelecting with state := "selecting", last_message := " 1 ", agent := some "Customer Service", last_activity_timestamp := some 1000 } :=
  c1_bind_cs_from_selecting envOk 1000 (storeWith recSelecting) "628" " 1 " recSelecting
    (by decide) (by decide) (by decide) (by decide)

/-- C7: first-ever message from a phone key (given the store insert
succeeds): response is `exists = false` with the literal welcome+menu
reply and empty choice; the created record has state `initial`, no
agent, both conversation ids null; and no upstream call occurs. -/
theorem c7_first_contact (env : Env) (now : Int) (store : String → Option UserRecord)
    (raw lastMessage : String)
    (hraw : raw ≠ "")
    (hstore : store (normalizePhone raw) = none)
    (hok : env.createUserOk = true) :
    webhookPost env now store (some raw) lastMessage =
      (HttpResponse.ok false welcomeReply "",
       [Event.fetchUser (normalizePhone raw),
        Event.createUserEv (normalizePhone raw) lastMessage true]) ∧
    applyEvents now (store (normalizePhone raw))
        (webhookPost env now store (some raw) lastMessage).2 =
      some (createUserRecord (normalizePhone raw) lastMessage now) ∧
    (createUserRecord (normalizePhone raw) lastMessage now).state = "initial" ∧
    (createUserRecord (normalizePhone raw) lastMessage now).agent = none ∧
    (createUserRecord (normalizePhone raw) lastMessage now).cs_conversation_id = none ∧
    (createUserRecord (normalizePhone raw) lastMessage now).sales_conversation_id = none ∧
    ∀ e ∈ (webhookPost env now store (some raw) lastMessage).2, isUpstreamCall e = false := by
  have htrace : webhookPost env now store (some raw) lastMessage =
      (HttpResponse.ok false welcomeReply "",
       [Event.fetchUser (normalizePhone raw),
        Event.createUserEv (normalizePhone raw) lastMessage true]) := by
    simp [webhookPost, hraw, hstore, hok]
  refine ⟨htrace, ?_, rfl, rfl, rfl, rfl, ?_⟩
  · rw [htrace, hstore]
    simp [applyEvents]
  · rw [htrace]
    intro e he
    simp only [List.mem_cons, List.not_mem_nil, or_false] at he
    rcases he with rfl | rfl
    · rfl
    · rfl

/-- C7 witness: the scenario `{phone: "+62 812-345-678", message: "hello"}`
on an empty store. -/
theorem c7_first_contact_witness :
    webhookPost envOk 1000 (fun _ => none) (some "+62 812-345-678") "hello" =
      (HttpResponse.ok false welcomeReply "",
       [Event.fetchUser (normalizePhone "+62 812-345-678"),
        Event.createUserEv (normalizePhone "+62 812-345-678") "hello" true]) ∧
    applyEvents 1000 ((fun _ => none : String → Option UserRecord)
        (normalizePhone "+62 812-345-678"))
        (webhookPost envOk 1000 (fun _ => none) (some "+62 812-345-678") "hello").2 =
      some (createUserRecord (normalizePhone "+62 812-345-678") "hello" 1000) ∧
    (createUserRecord (normalizePhone "+62 812-345-678") "hello" 1000).state = "initial" ∧
    (createUserRecord (normalizePhone "+62 812-345-678") "hello" 1000).agent = none ∧
    (createUserRecord (normalizePhone "+62 812-345-678") "hello" 1000).cs_conversation_id = none ∧
    (createUserRecord (normalizePhone "+62 812-345-678") "hello" 1000).sales_conversation_id = none ∧
    ∀ e ∈ (webhookPost envOk 1000 (fun _ => none) (some "+62 812-345-678") "hello").2,
      isUpstreamCall e = false :=
  c7_first_contact envOk 1000 (fun _ => none) "+62 812-345-678" "hello"
    (by decide) rfl rfl

/-- Unfolding lemma for JS truthiness of a present string. -/
theorem optTruthy_some (s : String) : optTruthy (some s) = (s != "") := rfl

/-- The chat call always emits exactly its one upstream event. -/
theorem chatWithAgent_events (env : Env) (a m c : String) :
    (chatWithAgent env a m c).2 = [Event.chatCall a m c] := by
  unfold chatWithAgent
  cases env.chat a m c <;> rfl

/-- C2: routing a non-menu message to a bound agent: when the user is
inactive or no conversation handle is stored, exactly one upstream
create-conversation call is made and the new handle is persisted before
the chat message is sent; when the user is active and a handle is
stored, the stored handle is reused and zero creation calls are made. -/
theorem c2_conversation_reuse_or_create (env : Env) (now : Int)
    (store : String → Option UserRecord) (raw message : String) (r : UserRecord)
    (agentName cid : String)
    (hraw : raw ≠ "")
    (hstore : store (normalizePhone raw) = some r)
    (hstate : r.state = "selecting")
    (hm1 : jsTrim message ≠ "1") (hm2 : jsTrim message ≠ "2") (hm3 : jsTrim message ≠ "3")
    (hagent : r.agent = some agentName)
    (hknown : agentName = "Customer Service" ∨ agentName = "Sales") :
    ((isUserInactive now r.last_activity_timestamp = true ∨
        optTruthy (conversationField agentName r) = false) →
      env.createConv agentName = some cid →
      (webhookPost env now store (some raw) message).2 =
        [Event.fetchUser (normalizePhone raw),
         Event.inactivityCheck r.last_activity_timestamp,
         Event.updateMessage (normalizePhone raw) message,
         Event.createConvCall agentName,
         Event.updateConvId (normalizePhone raw) agentName cid,
         Event.chatCall agentName message cid,
         Event.updateActivity (normalizePhone raw)] ∧
      (webhookPost env now store (some raw) message).2.countP
          (fun e => isCreateConvCall e) = 1) ∧
    (isUserInactive now r.last_activity_timestamp = false →
      ∀ ecid, conversationField agentName r = some ecid → ecid ≠ "" →
      (webhookPost env now store (some raw) message).2 =
        [Event.fetchUser (normalizePhone raw),
         Event.inactivityCheck r.last_activity_timestamp,
         Event.updateMessage (normalizePhone raw) message,
         Event.chatCall agentName message ecid,
         Event.updateActivity (normalizePhone raw)] ∧
      (webhookPost env now store (some raw) message).2.countP
          (fun e => isCreateConvCall e) = 0) := by
  have hne : agentName ≠ "" := by rcases hknown with rfl | rfl <;> decide
  constructor
  · intro hforce hcc
    have htrace : (webhookPost env now store (some raw) message).2 =
        [Event.fetchUser (normalizePhone raw),
         Event.inactivityCheck r.last_activity_timestamp,
         Event.updateMessage (normalizePhone raw) message,
         Event.createConvCall agentName,
         Event.updateConvId (normalizePhone raw) agentName cid,
         Event.chatCall agentName message cid,
         Event.updateActivity (normalizePhone raw)] := by
      rcases hforce with hforce | hforce <;>
        rcases hknown with rfl | rfl <;>
        simp [webhookPost, hraw, hstore, handleAgentSelection, hstate, hm1, hm2, hm3,
          hagent, optTruthy_some, getOrCreateConversationId, createConversationId, AGENT_IDS,
          hforce, hcc, chatWithAgent_events]
    refine ⟨htrace, ?_⟩
    rw [htrace]
    simp [List.countP_cons, isCreateConvCall]
  · intro hactive ecid hecid hecidne
    have htrace : (webhookPost env now store (some raw) message).2 =
        [Event.fetchUser (normalizePhone raw),
         Event.inactivityCheck r.last_activity_timestamp,
         Event.updateMessage (normalizePhone raw) message,
         Event.chatCall agentName message ecid,
         Event.updateActivity (normalizePhone raw)] := by
      rcases hknown with rfl | rfl <;>
        simp [webhookPost, hraw, hstore, handleAgentSelection, hstate, hm1, hm2, hm3,
          hagent, optTruthy_some, getOrCreateConversationId, createConversationId, AGENT_IDS,
          hactive, hecid, hecidne, chatWithAgent_events]
    refine ⟨htrace, ?_⟩
    rw [htrace]
    simp [List.countP_cons, isCreateConvCall]

/-- C2 witness: an active user with a stored CS handle sends a plain
message; the handle is reused and no creation call is made. -/
theorem c2_conversation_reuse_or_create_witness :
    (webhookPost envOk 1000 (storeWith recCS) (some "628") "hello").2 =
      [Event.fetchUser (normalizePhone "628"),
       Event.inactivityCheck recCS.last_activity_timestamp,
       Event.updateMessage (normalizePhone "628") "hello",
       Event.chatCall "Customer Service" "hello" "cid-old",
       Event.updateActivity (normalizePhone "628")] ∧
    (webhookPost envOk 1000 (storeWith recCS) (some "628") "hello").2.countP
        (fun e => isCreateConvCall e) = 0 :=
  (c2_conversation_reuse_or_create envOk 1000 (storeWith recCS) "628" "hello" recCS
      "Customer Service" "cid-new" (by decide) (by decide) (by decide) (by decide)
      (by decide) (by decide) (by decide) (Or.inl rfl)).2
    (by decide) "cid-old" (by decide) (by decide)

/-- C3: when a non-menu message is routed to a bound agent, the
inactivity check uses the `last_activity_timestamp` fetched at the start
of the request: the check event carries the pre-request value, the only
earlier event is the fetch (not a write), and every store write of the
request comes after the check. -/
theorem c3_inactivity_read_before_writes (env : Env) (now : Int)
    (store : String → Option UserRecord) (raw message : String) (r : UserRecord)
    (hraw : raw ≠ "")
    (hstore : store (normalizePhone raw) = some r)
    (hstate : r.state = "selecting")
    (hm1 : jsTrim message ≠ "1") (hm2 : jsTrim message ≠ "2") (hm3 : jsTrim message ≠ "3")
    (hagent : optTruthy r.agent = true) :
    ∃ post,
      (webhookPost env now store (some raw) message).2 =
        Event.fetchUser (normalizePhone raw) ::
          Event.inactivityCheck r.last_activity_timestamp :: post ∧
      writesAnyField (Event.fetchUser (normalizePhone raw)) = false ∧
      ∀ e ∈ (webhookPost env now store (some raw) message).2,
        writesAnyField e = true → e ∈ post := by
  have htrace : (webhookPost env now store (some raw) message).2 =
      Event.fetchUser (normalizePhone raw) ::
        Event.inactivityCheck r.last_activity_timestamp ::
        Event.updateMessage (normalizePhone raw) message ::
        (handleAgentSelection env (normalizePhone raw) r.state message r
          (isUserInactive now r.last_activity_timestamp)).2 := by
    simp only [webhookPost, hraw, hstore]
    cases (handleAgentSelection env (normalizePhone raw) r.state message r
        (isUserInactive now r.last_activity_timestamp)).1 <;> simp
  refine ⟨Event.updateMessage (normalizePhone raw) message ::
      (handleAgentSelection env (normalizePhone raw) r.state message r
        (isUserInactive now r.last_activity_timestamp)).2, htrace, rfl, ?_⟩
  intro e he hw
  rw [htrace] at he
  rcases List.mem_cons.mp he with rfl | he2
  · simp [writesAnyField] at hw
  rcases List.mem_cons.mp he2 with rfl | he3
  · simp [writesAnyField] at hw
  exact he3

/-- C3 witness: a bound, active user sending `"hello"`. -/
theorem c3_inactivity_read_before_writes_witness :
    ∃ post,
      (webhookPost envOk 1000 (storeWith recCS) (some "628") "hello").2 =
        Event.fetchUser (normalizePhone "628") ::
          Event.inactivityCheck recCS.last_activity_timestamp :: post ∧
      writesAnyField (Event.fetchUser (normalizePhone "628")) = false ∧
      ∀ e ∈ (webhookPost envOk 1000 (storeWith recCS) (some "628") "hello").2,
        writesAnyField e = true → e ∈ post :=
  c3_inactivity_read_before_writes envOk 1000 (storeWith recCS) "628" "hello" recCS
    (by decide) (by decide) (by decide) (by decide) (by decide) (by decide) (by decide)

/-- C4: when routing to a bound agent and the create-conversation step
fails (upstream failure/malformed response, or unknown agent type), the
reply is the fixed system-error string, the choice is the bound agent
name, and the persisted record keeps its agent binding and both
conversation ids (only state and last_message change). -/
theorem c4_create_failure_error_reply (env : Env) (now : Int)
    (store : String → Option UserRecord) (raw message : String) (r : UserRecord)
    (agentName : String)
    (hraw : raw ≠ "")
    (hstore : store (normalizePhone raw) = some r)
    (hstate : r.state = "selecting")
    (hm1 : jsTrim message ≠ "1") (hm2 : jsTrim message ≠ "2") (hm3 : jsTrim message ≠ "3")
    (hagent : r.agent = some agentName) (hne : agentName ≠ "")
    (hforce : isUserInactive now r.last_activity_timestamp = true ∨
      optTruthy (conversationField agentName r) = false)
    (hfail : (createConversationId env agentName).1 = none) :
    (webhookPost env now store (some raw) message).1 =
      HttpResponse.ok true "Maaf, terjadi kesalahan sistem. Silahkan coba lagi nanti."
        agentName ∧
    applyEvents now (some r) (webhookPost env now store (some raw) message).2 =
      some { r with state := "selecting", last_message := message } := by
  cases hAI : AGENT_IDS agentName with
  | none =>
      rcases hforce with hforce | hforce <;>
        constructor <;>
        simp [webhookPost, hraw, hstore, handleAgentSelection, hstate, hm1, hm2, hm3,
          hagent, optTruthy_some, hne, getOrCreateConversationId, createConversationId,
          hAI, hforce, applyEvents, applyEventRec]
  | some aid =>
      have hcc : env.createConv agentName = none := by
        simpa [createConversationId, hAI] using hfail
      rcases hforce with hforce | hforce <;>
        constructor <;>
        simp [webhookPost, hraw, hstore, handleAgentSelection, hstate, hm1, hm2, hm3,
          hagent, optTruthy_some, hne, getOrCreateConversationId, createConversationId,
          hAI, hcc, hforce, applyEvents, applyEventRec]

/-- C4 witness: an inactive CS-bound user with a failing upstream. -/
theorem c4_create_failure_error_reply_witness :
    (webhookPost envFail 999999 (storeWith recCS) (some "628") "hello").1 =
      HttpResponse.ok true "Maaf, terjadi kesalahan sistem. Silahkan coba lagi nanti."
        "Customer Service" ∧
    applyEvents 999999 (some recCS)
        (webhookPost envFail 999999 (storeWith recCS) (some "628") "hello").2 =
      some { recCS with state := "selecting", last_message := "hello" } :=
  c4_create_failure_error_reply envFail 999999 (storeWith recCS) "628" "hello" recCS
    "Customer Service" (by decide) (by decide) (by decide) (by decide) (by decide)
    (by decide) (by decide) (by decide) (Or.inl (by decide)) (by decide)

/-- C6: in a request from an existing user, any event that touches
`last_activity_timestamp` happens only on a menu selection or with a
bound agent; a plain text message with no agent bound leaves the record
with only state and last_message changed; and the unconditional message
update preserves agent, activity timestamp and both conversation ids. -/
theorem c6_activity_timestamp_frame (env : Env) (now : Int)
    (store : String → Option UserRecord) (raw message : String) (r : UserRecord)
    (hraw : raw ≠ "")
    (hstore : store (normalizePhone raw) = some r) :
    (∀ e ∈ (webhookPost env now store (some raw) message).2,
        writesActivity e = true →
        (jsTrim message = "1" ∨ jsTrim message = "2" ∨ jsTrim message = "3" ∨
         optTruthy r.agent = true)) ∧
    ((jsTrim message ≠ "1" ∧ jsTrim message ≠ "2" ∧ jsTrim message ≠ "3" ∧
        optTruthy r.agent = false) →
      applyEvents now (some r) (webhookPost env now store (some raw) message).2 =
        some { r with state := "selecting", last_message := message }) ∧
    (∀ (s : UserRecord) (p m : String),
      (applyEventRec now s (Event.updateMessage p m)).agent = s.agent ∧
      (applyEventRec now s (Event.updateMessage p m)).last_activity_timestamp =
        s.last_activity_timestamp ∧
      (applyEventRec now s (Event.updateMessage p m)).cs_conversation_id =
        s.cs_conversation_id ∧
      (applyEventRec now s (Event.updateMessage p m)).sales_conversation_id =
        s.sales_conversation_id ∧
      (applyEventRec now s (Event.updateMessage p m)).state = "selecting" ∧
      (applyEventRec now s (Event.updateMessage p m)).last_message = m) := by
  refine ⟨?_, ?_, fun s p m => ⟨rfl, rfl, rfl, rfl, rfl, rfl⟩⟩
  · intro e he hw
    by_cases h1 : jsTrim message = "1"
    · exact Or.inl h1
    by_cases h2 : jsTrim message = "2"
    · exact Or.inr (Or.inl h2)
    by_cases h3 : jsTrim message = "3"
    · exact Or.inr (Or.inr (Or.inl h3))
    by_cases ha : optTruthy r.agent = true
    · exact Or.inr (Or.inr (Or.inr ha))
    exfalso
    have hafalse : optTruthy r.agent = false := by
      cases hx : optTruthy r.agent
      · rfl
      · exact absurd hx ha
    by_cases hst : r.state = "selecting"
    · have htrace : (webhookPost env now store (some raw) message).2 =
          [Event.fetchUser (normalizePhone raw),
           Event.inactivityCheck r.last_activity_timestamp,
           Event.updateMessage (normalizePhone raw) message] := by
        simp [webhookPost, hraw, hstore, handleAgentSelection, hst, h1, h2, h3, hafalse]
      rw [htrace] at he
      simp only [List.mem_cons, List.not_mem_nil, or_false] at he
      rcases he with rfl | rfl | rfl <;> simp [writesActivity] at hw
    · have htrace : (webhookPost env now store (some raw) message).2 =
          [Event.fetchUser (normalizePhone raw),
           Event.inactivityCheck r.last_activity_timestamp,
           Event.updateMessage (normalizePhone raw) message] := by
        simp [webhookPost, hraw, hstore, handleAgentSelection, hst]
      rw [htrace] at he
      simp only [List.mem_cons, List.not_mem_nil, or_false] at he
      rcases he with rfl | rfl | rfl <;> simp [writesActivity] at hw
  · rintro ⟨h1, h2, h3, ha⟩
    by_cases hst : r.state = "selecting"
    · simp [webhookPost, hraw, hstore, handleAgentSelection, hst, h1, h2, h3, ha,
        applyEvents, applyEventRec]
    · simp [webhookPost, hraw, hstore, handleAgentSelection, hst,
        applyEvents, applyEventRec]

/-- C6 witness: an unbound user in state `selecting` sends plain text;
only state and last_message change. -/
theorem c6_activity_timestamp_frame_witness :
    applyEvents 1000 (some recSelecting)
        (webhookPost envOk 1000 (storeWith recSelecting) (some "628") "hello").2 =
      some { recSelecting with state := "selecting", last_message := "hello" } :=
  ((c6_activity_timestamp_frame envOk 1000 (storeWith recSelecting) "628" "hello"
      recSelecting (by decide) (by decide)).2).1
    ⟨by decide, by decide, by decide, by decide⟩

end WebhookChatbot
